import Mathlib

/-!
Verification development for the Shopify extraction pipeline
(`shopify_simple_pipeline.py` and `test_shopify_connection.py`).

The pipeline's three resource generators (`orders`, `products`, `customers`)
share one shape: an HTTP pagination loop driven by the response's `Link`
header, a per-record flattening of nested JSON into a flat row, and a
merge-by-`id` write disposition handed to the loader.  The development below
embeds that logic shallowly: JSON values are an inductive type, Python
`dict.get` semantics are explicit, the pagination loop is a recursive
function over a scripted list of HTTP outcomes, and the connection probe is
an `Except`-style computation whose handler chain mirrors the script's
`try/except` blocks.
-/

namespace Shopify

/-- JSON values as delivered by `response.json()`; `null` doubles as Python
`None` (in particular as the default of `dict.get`). -/
inductive JValue where
  | null : JValue
  | bool (b : Bool) : JValue
  | num (n : Int) : JValue
  | str (s : String) : JValue
  | arr (elems : List JValue) : JValue
  | obj (fields : List (String × JValue)) : JValue

/-- Python truthiness of a JSON value: `None`, `False`, `0`, `""`, `[]` and
an empty dict are falsy, everything else is truthy. -/
def truthy : JValue → Bool
  | .null => false
  | .bool b => b
  | .num n => !(n == 0)
  | .str s => !(s == "")
  | .arr xs => !xs.isEmpty
  | .obj fs => !fs.isEmpty

/-- Python `str()`/`repr()` of a JSON value, as used by the customers
flattener on `addresses`, `tax_exemptions` and `default_address`
(`repr` rendering for values nested inside containers). -/
def pyRepr : JValue → String
  | .null => "None"
  | .bool true => "True"
  | .bool false => "False"
  | .num n => toString n
  | .str s => "\x27" ++ s ++ "\x27"
  | .arr xs => "[" ++ String.intercalate ", " (xs.attach.map (fun x => pyRepr x.1)) ++ "]"
  | .obj fs => "\x7b" ++ String.intercalate ", "
      (fs.attach.map (fun p => "\x27" ++ p.1.1 ++ "\x27: " ++ pyRepr p.1.2)) ++ "\x7d"
decreasing_by
  · simp_wf
    have := List.sizeOf_lt_of_mem x.2
    omega
  · simp_wf
    obtain ⟨⟨a, b⟩, hm⟩ := p
    have h1 := List.sizeOf_lt_of_mem hm
    simp at h1 ⊢
    omega

/-- Python `str()`: a string renders as itself, containers and scalars render
via `repr`. -/
def pyStr (v : JValue) : String :=
  match v with
  | .str s => s
  | v => pyRepr v

/-- A raw API record (`order`, `product`, `customer`): a JSON dictionary. -/
abbrev RawRecord : Type := List (String × JValue)

/-- A flattened row as yielded to the loader; association list so that the
key set and key order of the produced dict are visible. -/
abbrev FlatRecord : Type := List (String × JValue)

/-- Dictionary lookup: `some v` when the key is present, `none` otherwise. -/
def lookupField (r : List (String × JValue)) (k : String) : Option JValue :=
  (r.find? (fun p => p.1 == k)).map (fun p => p.2)

/-- Python `d.get(k)`: the stored value, or `None` when the key is absent. -/
def pyGet (r : List (String × JValue)) (k : String) : JValue :=
  (lookupField r k).getD .null

/-- Python `d.get(k, default)`. -/
def pyGetD (r : List (String × JValue)) (k : String) (d : JValue) : JValue :=
  (lookupField r k).getD d

/-- Whether `order.get(p).get(...)`-style access on parent field `p` is free
of `AttributeError`: the guard `if order.get(p)` short-circuits falsy values,
so only a truthy non-dict parent makes the attribute access raise. -/
def nestedOK (v : JValue) : Bool :=
  !(truthy v) || (match v with | .obj _ => true | _ => false)

/-- `order.get(p, \x7b\x7d).get(k) if order.get(p) else None`: `None` when the
parent is falsy, otherwise the parent dict's entry for `k` (defaulting to
`None`).  Only meaningful under `nestedOK`. -/
def nestedGet (r : RawRecord) (p k : String) : JValue :=
  let v := pyGet r p
  if truthy v then (match v with | .obj fs => pyGet fs k | _ => .null) else .null

/-- The flattening step of the `orders` generator (`order_flat` dict literal,
`shopify_simple_pipeline.py` lines 69-108).  `now` is `datetime.now().isoformat()`
at the moment of flattening.  Building the dict literal evaluates every value;
a truthy non-dict `customer`/`billing_address`/`shipping_address` would raise
`AttributeError` while doing so, which the `nestedOK` guards model as `none`. -/
def order_flat (order : RawRecord) (now : String) : Option FlatRecord :=
  if nestedOK (pyGet order "customer") && nestedOK (pyGet order "billing_address")
      && nestedOK (pyGet order "shipping_address") then
    some [
      ("id", pyGet order "id"),
      ("order_number", pyGet order "order_number"),
      ("name", pyGet order "name"),
      ("email", pyGet order "email"),
      ("phone", pyGet order "phone"),
      ("created_at", pyGet order "created_at"),
      ("updated_at", pyGet order "updated_at"),
      ("processed_at", pyGet order "processed_at"),
      ("cancelled_at", pyGet order "cancelled_at"),
      ("cancel_reason", pyGet order "cancel_reason"),
      ("currency", pyGet order "currency"),
      ("financial_status", pyGet order "financial_status"),
      ("fulfillment_status", pyGet order "fulfillment_status"),
      ("total_price", pyGet order "total_price"),
      ("subtotal_price", pyGet order "subtotal_price"),
      ("total_tax", pyGet order "total_tax"),
      ("total_discounts", pyGet order "total_discounts"),
      ("total_weight", pyGet order "total_weight"),
      ("total_tip_received", pyGet order "total_tip_received"),
      ("customer_id", nestedGet order "customer" "id"),
      ("customer_email", nestedGet order "customer" "email"),
      ("billing_address_name", nestedGet order "billing_address" "name"),
      ("billing_address_company", nestedGet order "billing_address" "company"),
      ("billing_address_address1", nestedGet order "billing_address" "address1"),
      ("billing_address_city", nestedGet order "billing_address" "city"),
      ("billing_address_province", nestedGet order "billing_address" "province"),
      ("billing_address_country", nestedGet order "billing_address" "country"),
      ("billing_address_zip", nestedGet order "billing_address" "zip"),
      ("shipping_address_name", nestedGet order "shipping_address" "name"),
      ("shipping_address_company", nestedGet order "shipping_address" "company"),
      ("shipping_address_address1", nestedGet order "shipping_address" "address1"),
      ("shipping_address_city", nestedGet order "shipping_address" "city"),
      ("shipping_address_province", nestedGet order "shipping_address" "province"),
      ("shipping_address_country", nestedGet order "shipping_address" "country"),
      ("shipping_address_zip", nestedGet order "shipping_address" "zip"),
      ("note", pyGet order "note"),
      ("tags", pyGet order "tags"),
      ("extracted_at", .str now)]
  else none

/-- The flattening step of the `products` generator (`product_flat` dict
literal, lines 179-195): plain top-level `get`s only, so it is total. -/
def product_flat (product : RawRecord) (now : String) : FlatRecord :=
  [("id", pyGet product "id"),
   ("title", pyGet product "title"),
   ("body_html", pyGet product "body_html"),
   ("vendor", pyGet product "vendor"),
   ("product_type", pyGet product "product_type"),
   ("created_at", pyGet product "created_at"),
   ("updated_at", pyGet product "updated_at"),
   ("published_at", pyGet product "published_at"),
   ("template_suffix", pyGet product "template_suffix"),
   ("status", pyGet product "status"),
   ("published_scope", pyGet product "published_scope"),
   ("tags", pyGet product "tags"),
   ("admin_graphql_api_id", pyGet product "admin_graphql_api_id"),
   ("handle", pyGet product "handle"),
   ("extracted_at", .str now)]

/-- The flattening step of the `customers` generator (`customer_flat` dict
literal, lines 265-292).  `addresses`, `tax_exemptions` and `default_address`
are serialized with Python `str(...)` over defaults `[]`, `[]` and an empty
dict respectively; all other fields are plain `get`s. -/
def customer_flat (customer : RawRecord) (now : String) : FlatRecord :=
  [("id", pyGet customer "id"),
   ("email", pyGet customer "email"),
   ("accepts_marketing", pyGet customer "accepts_marketing"),
   ("created_at", pyGet customer "created_at"),
   ("updated_at", pyGet customer "updated_at"),
   ("first_name", pyGet customer "first_name"),
   ("last_name", pyGet customer "last_name"),
   ("orders_count", pyGet customer "orders_count"),
   ("state", pyGet customer "state"),
   ("total_spent", pyGet customer "total_spent"),
   ("last_order_id", pyGet customer "last_order_id"),
   ("note", pyGet customer "note"),
   ("verified_email", pyGet customer "verified_email"),
   ("multipass_identifier", pyGet customer "multipass_identifier"),
   ("tax_exempt", pyGet customer "tax_exempt"),
   ("tags", pyGet customer "tags"),
   ("last_order_name", pyGet customer "last_order_name"),
   ("currency", pyGet customer "currency"),
   ("phone", pyGet customer "phone"),
   ("addresses", .str (pyStr (pyGetD customer "addresses" (.arr [])))),
   ("accepts_marketing_updated_at", pyGet customer "accepts_marketing_updated_at"),
   ("marketing_opt_in_level", pyGet customer "marketing_opt_in_level"),
   ("tax_exemptions", .str (pyStr (pyGetD customer "tax_exemptions" (.arr [])))),
   ("admin_graphql_api_id", pyGet customer "admin_graphql_api_id"),
   ("default_address", .str (pyStr (pyGetD customer "default_address" (.obj [])))),
   ("extracted_at", .str now)]

/-- The fixed key list of an orders flat row, in dict-literal order. -/
def orderFieldNames : List String :=
  ["id", "order_number", "name", "email", "phone", "created_at", "updated_at",
   "processed_at", "cancelled_at", "cancel_reason", "currency",
   "financial_status", "fulfillment_status", "total_price", "subtotal_price",
   "total_tax", "total_discounts", "total_weight", "total_tip_received",
   "customer_id", "customer_email", "billing_address_name",
   "billing_address_company", "billing_address_address1",
   "billing_address_city", "billing_address_province",
   "billing_address_country", "billing_address_zip", "shipping_address_name",
   "shipping_address_company", "shipping_address_address1",
   "shipping_address_city", "shipping_address_province",
   "shipping_address_country", "shipping_address_zip", "note", "tags",
   "extracted_at"]

/-- The fixed key list of a products flat row, in dict-literal order. -/
def productFieldNames : List String :=
  ["id", "title", "body_html", "vendor", "product_type", "created_at",
   "updated_at", "published_at", "template_suffix", "status",
   "published_scope", "tags", "admin_graphql_api_id", "handle",
   "extracted_at"]

/-- The fixed key list of a customers flat row, in dict-literal order. -/
def customerFieldNames : List String :=
  ["id", "email", "accepts_marketing", "created_at", "updated_at",
   "first_name", "last_name", "orders_count", "state", "total_spent",
   "last_order_id", "note", "verified_email", "multipass_identifier",
   "tax_exempt", "tags", "last_order_name", "currency", "phone", "addresses",
   "accepts_marketing_updated_at", "marketing_opt_in_level", "tax_exemptions",
   "admin_graphql_api_id", "default_address", "extracted_at"]

/-- The characters on which the regex character class `[^&>]` stops. -/
def piStop (c : Char) : Bool := c == '&' || c == '>'

/-- The literal part of the pattern `page_info=([^&>]+)`. -/
def piPat : List Char := "page_info=".toList

/-- One attempt of the regex `page_info=([^&>]+)` at the start of `l`: the
literal must be a prefix and must be followed by at least one character
other than `&` and `>`; the capture is the maximal such run. -/
def piMatchHere (l : List Char) : Option (List Char) :=
  if piPat.isPrefixOf l then
    match l.drop piPat.length with
    | [] => none
    | a :: as => if piStop a then none else some (a :: as.takeWhile (fun x => !piStop x))
  else none

/-- `re.search(r'page_info=([^&>]+)', link_header)`: try the match at every
position, left to right, and return the first success — a failed attempt at
one position continues the scan at the next. -/
def pageInfoSearch : List Char → Option (List Char)
  | [] => none
  | c :: cs =>
    match piMatchHere (c :: cs) with
    | some w => some w
    | none => pageInfoSearch cs

/-- The page cursor the loop extracts from a `Link` header:
`next_match.group(1)` when the regex matches, `None` otherwise. -/
def extractPageInfo (h : String) : Option String :=
  (pageInfoSearch h.toList).map (fun l => String.mk l)

/-- The substring tested by `if 'rel="next"' in link_header`. -/
def relNext : List Char := "rel=\"next\"".toList

/-- Python `pat in s` over character lists: `pat` occurs contiguously. -/
def containsSeq (pat : List Char) : List Char → Bool
  | [] => pat.isEmpty
  | c :: cs => pat.isPrefixOf (c :: cs) || containsSeq pat cs

/-- `'rel="next"' in link_header`: plain substring containment over the whole
header, not a per-link relation check. -/
def hasNextRel (h : String) : Bool := containsSeq relNext h.toList

/-- One scripted outcome of `requests.get` inside a resource generator:
either a successful response (its record list under the resource's plural
key, and its `Link` header, `''` when absent), or a raised
`requests.exceptions.RequestException` — which is what both transport
failures and `raise_for_status` on an HTTP error status produce. -/
inductive ApiResult where
  | ok (body : List RawRecord) (link : String) : ApiResult
  | err (msg : String) : ApiResult

/-- Observable behaviour of one run of a resource generator's `while True`
pagination loop: the records yielded in order, the number of `requests.get`
calls issued, the durations (in seconds) of the `time.sleep(0.5)` pauses
executed between consecutive requests, the `page_info` cursors passed to the
follow-up requests, the error lines printed, and whether the loop reached one
of its `break`s (as opposed to exhausting the scripted responses). -/
structure FetchTrace where
  records : List RawRecord
  requests : Nat
  pauses : List ℚ
  cursors : List String
  logs : List String
  finished : Bool

/-- The shared pagination loop of `orders` / `products` / `customers`
(lines 49-129, 158-215, 244-312), over a script of responses served in
request order.  Control flow per iteration: a raised `RequestException` is
caught, logged and breaks; an empty record list breaks; otherwise the records
are yielded, then the `Link` header is inspected — no `rel="next"` substring
breaks, a `rel="next"` without an extractable `page_info` breaks, and
otherwise the cursor is stored, `time.sleep(0.5)` runs, and the loop issues
the next request. -/
def fetchLoop (resource : String) : List ApiResult → FetchTrace
  | [] => ⟨[], 0, [], [], [], false⟩
  | .err e :: _ => ⟨[], 1, [], [], ["Error fetching " ++ resource ++ ": " ++ e], true⟩
  | .ok body link :: rest =>
    if body.isEmpty then ⟨[], 1, [], [], [], true⟩
    else if hasNextRel link then
      match extractPageInfo link with
      | some c =>
        let t := fetchLoop resource rest
        ⟨body ++ t.records, t.requests + 1, (0.5 : ℚ) :: t.pauses,
         c :: t.cursors, t.logs, t.finished⟩
      | none => ⟨body, 1, [], [], [], true⟩
    else ⟨body, 1, [], [], [], true⟩

/-- The `orders` resource generator's pagination loop. -/
def orders : List ApiResult → FetchTrace := fetchLoop "orders"

/-- The `products` resource generator's pagination loop. -/
def products : List ApiResult → FetchTrace := fetchLoop "products"

/-- The `customers` resource generator's pagination loop. -/
def customers : List ApiResult → FetchTrace := fetchLoop "customers"

/-- Modelled from the spec: the external loader's merge/upsert write
disposition (`write_disposition="merge"`, `primary_key="id"`), whose
implementation lives in the `dlt` runtime, not in this repository.  Within
one batch, rows with a duplicate key are collapsed to one. -/
def dedupByKey {ρ κ : Type} [DecidableEq κ] (key : ρ → κ) : List ρ → List ρ
  | [] => []
  | r :: rs => r :: (dedupByKey key rs).filter (fun x => !decide (key x = key r))

/-- Modelled from the spec: merge the batch into the table by key — existing
rows whose key occurs in the batch are replaced, new keys are inserted,
nothing is appended twice.  For the pipeline, `key` is the row's `id` column
(`primary_key="id"`). -/
def mergeByKey {ρ κ : Type} [DecidableEq κ] (key : ρ → κ) (table batch : List ρ) : List ρ :=
  table.filter (fun r => !decide (key r ∈ batch.map key)) ++ dedupByKey key batch

/-- The Python exceptions that can surface inside `test_shopify_connection`'s
`try` block.  `httpStatusError` is `requests.exceptions.HTTPError` (raised by
`raise_for_status`), `requestError` is any other
`requests.exceptions.RequestException` (transport failure). -/
inductive PyExc where
  | nameError (n : String) : PyExc
  | typeError : PyExc
  | attrError : PyExc
  | keyError (k : String) : PyExc
  | httpStatusError (status : Nat) : PyExc
  | requestError : PyExc

/-- An HTTP response as seen by the probe: status code and parsed JSON. -/
structure PyResp where
  status : Nat
  body : JValue

/-- The world a probe run interacts with: the process environment, and the
outcome of the `i`-th `requests.get` call (`none` is a raised transport-level
`RequestException`). -/
structure ProbeWorld where
  env : String → Option String
  http : Nat → Option PyResp

/-- The module-level imports of `test_shopify_connection.py` (lines 6-8):
`dlt`, `requests`, `datetime` — and no `os`. -/
def testConnImports : List String := ["dlt", "requests", "datetime"]

/-- `os.getenv(k)`: because the module never imports `os`, evaluating the
name `os` raises `NameError`; under an `os` import it would return the
environment value, or `None` when unset. -/
def osGetenv (w : ProbeWorld) (k : String) : Except PyExc (Option String) :=
  if testConnImports.contains "os" then .ok (w.env k) else .error (.nameError "os")

/-- The token preview `f"{api_token[:10]}...{api_token[-4:]}"`: slicing
`None` raises `TypeError`. -/
def fmtTokenPreview (t : Option String) : Except PyExc String :=
  match t with
  | none => .error .typeError
  | some s => .ok (s.take 10 ++ "..." ++ s.drop (s.length - 4))

/-- `requests.get(...)`: the scripted response, or a raised
`RequestException` on transport failure. -/
def requestsGet (w : ProbeWorld) (i : Nat) : Except PyExc PyResp :=
  match w.http i with
  | none => .error .requestError
  | some r => .ok r

/-- `response.raise_for_status()`: raises `HTTPError` for 4xx/5xx codes. -/
def raiseForStatus (r : PyResp) : Except PyExc Unit :=
  if 400 ≤ r.status then .error (.httpStatusError r.status) else .ok ()

/-- `v.get(k, d)` on a JSON value: the dict entry (or default); on a
non-dict, the attribute access `.get` raises `AttributeError`. -/
def jGetAttrD (v : JValue) (k : String) (d : JValue) : Except PyExc JValue :=
  match v with
  | .obj fs => .ok (pyGetD fs k d)
  | _ => .error .attrError

/-- `orders_count > 0`: an int (or bool) compares against `0`; any other
JSON value raises `TypeError` in Python 3. -/
def pyGtZero : JValue → Except PyExc Bool
  | .num n => .ok (decide (0 < n))
  | .bool b => .ok b
  | _ => .error .typeError

/-- `orders_data['orders'][0]`: first element of a list; subscripting a
truthy non-list raises. -/
def pyFirst : JValue → Except PyExc JValue
  | .arr (x :: _) => .ok x
  | _ => .error .typeError

/-- The body of `test_shopify_connection`'s `try` block
(`test_shopify_connection.py` lines 14-84), step for step: read both
credentials via `os.getenv`, print the token preview, then the five
sequential checks (shop info, orders count, products count, customers count,
and a sample order when the orders count is positive). -/
def probeBody (w : ProbeWorld) : Except PyExc Unit := do
  let apiToken ← osGetenv w "API_TOKEN"
  let _storeId ← osGetenv w "STORE_ID"
  let _ ← fmtTokenPreview apiToken
  let r0 ← requestsGet w 0
  let _ ← raiseForStatus r0
  let shop ← jGetAttrD r0.body "shop" (.obj [])
  let _ ← jGetAttrD shop "name" (.str "N/A")
  let _ ← jGetAttrD shop "domain" (.str "N/A")
  let _ ← jGetAttrD shop "email" (.str "N/A")
  let r1 ← requestsGet w 1
  let _ ← raiseForStatus r1
  let ordersCount ← jGetAttrD r1.body "count" (.num 0)
  let r2 ← requestsGet w 2
  let _ ← raiseForStatus r2
  let _productsCount ← jGetAttrD r2.body "count" (.num 0)
  let r3 ← requestsGet w 3
  let _ ← raiseForStatus r3
  let _customersCount ← jGetAttrD r3.body "count" (.num 0)
  let anyOrders ← pyGtZero ordersCount
  if anyOrders then
    let r4 ← requestsGet w 4
    let _ ← raiseForStatus r4
    let ordersList ← jGetAttrD r4.body "orders" .null
    if truthy ordersList then
      let firstOrder ← pyFirst ordersList
      let _ ← jGetAttrD firstOrder "id" .null
      let _ ← jGetAttrD firstOrder "order_number" .null
      let _ ← jGetAttrD firstOrder "total_price" .null
      pure ()
    else
      pure ()
  else
    pure ()

/-- The outcome the probe reports: the success path, or which `except`
handler ran. -/
inductive ProbeOutcome where
  | success : ProbeOutcome
  | configError : ProbeOutcome
  | authError : ProbeOutcome
  | notFoundError : ProbeOutcome
  | otherHttpError : ProbeOutcome
  | networkError : ProbeOutcome
  | unexpectedError : ProbeOutcome
  deriving DecidableEq

/-- The `except` handler chain (lines 86-112), in Python's matching order:
`KeyError`, then `HTTPError` (with its 401/404/other branches), then
`RequestException`, then the catch-all `Exception`. -/
def classify : PyExc → ProbeOutcome
  | .keyError _ => .configError
  | .httpStatusError 401 => .authError
  | .httpStatusError 404 => .notFoundError
  | .httpStatusError _ => .otherHttpError
  | .requestError => .networkError
  | _ => .unexpectedError

/-- `test_shopify_connection()`: runs the `try` body; a completed body
returns `True`, a raised exception is classified by the handler chain, which
prints a diagnosis and returns `False`. -/
def test_shopify_connection (w : ProbeWorld) : ProbeOutcome × Bool :=
  match probeBody w with
  | .ok _ => (.success, true)
  | .error e => (classify e, false)

/-- Drop the `extracted_at` entry of a flat row (the only wall-clock-stamped
field). -/
def stripExtractedAt (fr : FlatRecord) : FlatRecord :=
  fr.filter (fun p => !(p.1 == "extracted_at"))

/-- A single-link `Link` header of the shape Shopify sends when only a next
page exists. -/
def linkNextAbc : String :=
  "<https://shop.myshopify.com/admin/api/2024-01/orders.json?limit=250&page_info=abc>; rel=\"next\""

/-- Split a header on commas (the separator between the links of a `Link`
header); used only by the spec-side parser below. -/
def splitOnComma : List Char → List (List Char)
  | [] => [[]]
  | c :: cs =>
    match splitOnComma cs with
    | [] => [[]]
    | h :: t => if c = ',' then [] :: h :: t else (c :: h) :: t

/-- Modelled from the spec: the cursor C2 describes — the `page_info`
parameter value of the link that carries the `rel="next"` relation.  Used as
the refinement target the code's regex extraction is compared against. -/
def specNextPageInfo (h : String) : Option String :=
  match (splitOnComma h.toList).find? (fun seg => containsSeq relNext seg) with
  | some seg => (pageInfoSearch seg).map (fun l => String.mk l)
  | none => none

/-- A two-link header in Shopify's order: the `rel="previous"` link (with its
own `page_info`) first, the `rel="next"` link second. -/
def prevNextHeader : String :=
  "<https://shop.myshopify.com/admin/api/2024-01/orders.json?limit=250&page_info=prevtoken>; rel=\"previous\", <https://shop.myshopify.com/admin/api/2024-01/orders.json?limit=250&page_info=nexttoken>; rel=\"next\""

set_option maxRecDepth 4096 in

/-- The top-level source fields the orders flattener selects (flat key =
source key). -/
def orderTopFields : List String :=
  ["id", "order_number", "name", "email", "phone", "created_at", "updated_at",
   "processed_at", "cancelled_at", "cancel_reason", "currency",
   "financial_status", "fulfillment_status", "total_price", "subtotal_price",
   "total_tax", "total_discounts", "total_weight", "total_tip_received",
   "note", "tags"]

/-- The flat fields the orders flattener derives from the nested
`customer` / `billing_address` / `shipping_address` objects. -/
def orderNestedFlatFields : List String :=
  ["customer_id", "customer_email", "billing_address_name",
   "billing_address_company", "billing_address_address1",
   "billing_address_city", "billing_address_province",
   "billing_address_country", "billing_address_zip", "shipping_address_name",
   "shipping_address_company", "shipping_address_address1",
   "shipping_address_city", "shipping_address_province",
   "shipping_address_country", "shipping_address_zip"]

/-- The source fields the products flattener selects. -/
def productTopFields : List String :=
  ["id", "title", "body_html", "vendor", "product_type", "created_at",
   "updated_at", "published_at", "template_suffix", "status",
   "published_scope", "tags", "admin_graphql_api_id", "handle"]

/-- The customers fields selected by a plain `get` (everything except the
three `str(...)`-serialized fields and the timestamp). -/
def customerPlainFields : List String :=
  ["id", "email", "accepts_marketing", "created_at", "updated_at",
   "first_name", "last_name", "orders_count", "state", "total_spent",
   "last_order_id", "note", "verified_email", "multipass_identifier",
   "tax_exempt", "tags", "last_order_name", "currency", "phone",
   "accepts_marketing_updated_at", "marketing_opt_in_level",
   "admin_graphql_api_id"]

/-! Theorems. -/

/-- C3: for every raw record of a given resource kind, the flat record
produced by the flattening step has exactly the fixed key set (indeed key
list) of that kind — `orderFieldNames` / `productFieldNames` /
`customerFieldNames` — no matter which optional fields or nested objects are
present or absent in the input. -/
theorem flat_record_key_sets_fixed :
    (∀ (r : RawRecord) (now : String) (fr : FlatRecord),
        order_flat r now = some fr → fr.map Prod.fst = orderFieldNames) ∧
    (∀ (r : RawRecord) (now : String),
        (product_flat r now).map Prod.fst = productFieldNames) ∧
    (∀ (r : RawRecord) (now : String),
        (customer_flat r now).map Prod.fst = customerFieldNames) := by
  refine ⟨?_, fun r now => rfl, fun r now => rfl⟩
  intro r now fr h
  unfold order_flat at h
  split at h
  · injection h with h
    subst h
    rfl
  · cases h

/-- Witness for C3: the empty orders record flattens successfully and its
key list is `orderFieldNames`. -/
theorem flat_record_key_sets_fixed_witness :
    ∃ fr : FlatRecord, order_flat [] "t" = some fr ∧ fr.map Prod.fst = orderFieldNames :=
  ⟨_, rfl, flat_record_key_sets_fixed.1 [] "t" _ rfl⟩

/-- C7: flattening the same raw record at two different wall-clock instants
produces flat records that agree on every field except `extracted_at`
(flattening is deterministic modulo the timestamp). -/
theorem flatten_deterministic_modulo_timestamp :
    (∀ (r : RawRecord) (t₁ t₂ : String),
        (order_flat r t₁).map stripExtractedAt = (order_flat r t₂).map stripExtractedAt) ∧
    (∀ (r : RawRecord) (t₁ t₂ : String),
        stripExtractedAt (product_flat r t₁) = stripExtractedAt (product_flat r t₂)) ∧
    (∀ (r : RawRecord) (t₁ t₂ : String),
        stripExtractedAt (customer_flat r t₁) = stripExtractedAt (customer_flat r t₂)) := by
  refine ⟨?_, fun r t₁ t₂ => rfl, fun r t₁ t₂ => rfl⟩
  intro r t₁ t₂
  unfold order_flat
  split
  · rfl
  · rfl

/-- C1: against a scripted paginated API with `N = pages.length + 1` pages,
each page nonempty, pages `1..N-1` carrying a `rel="next"` link with a
parseable `page_info` and page `N` carrying none, the pagination loop of each
resource generator yields the concatenation of all pages' records in page
order, issues exactly `N` requests, executes exactly one `time.sleep(0.5)`
pause between each pair of consecutive requests (`N-1` pauses of `0.5`
seconds), and terminates cleanly. -/
theorem fetch_yields_all_pages (resource : String)
    (pages : List (List RawRecord × String)) (lastBody : List RawRecord) (lastLink : String)
    (hpages : ∀ p ∈ pages, p.1 ≠ [] ∧ hasNextRel p.2 = true ∧ (extractPageInfo p.2).isSome = true)
    (hlastB : lastBody ≠ []) (hlastL : hasNextRel lastLink = false) :
    fetchLoop resource (pages.map (fun p => ApiResult.ok p.1 p.2) ++ [ApiResult.ok lastBody lastLink]) =
      ⟨(pages.map Prod.fst).flatten ++ lastBody, pages.length + 1,
       List.replicate pages.length (0.5 : ℚ),
       pages.map (fun p => (extractPageInfo p.2).getD ""), [], true⟩ := by
  induction pages with
  | nil =>
    have hb : lastBody.isEmpty = false := by
      cases lastBody with
      | nil => exact absurd rfl hlastB
      | cons a l => rfl
    simp [fetchLoop, hb, hlastL]
  | cons p ps ih =>
    obtain ⟨hne, hnext, hsome⟩ := hpages p (List.mem_cons_self _ _)
    obtain ⟨c, hc⟩ := Option.isSome_iff_exists.mp hsome
    have hb : p.1.isEmpty = false := by
      cases hp : p.1 with
      | nil => exact absurd hp hne
      | cons a l => rfl
    have hih := ih (fun q hq => hpages q (List.mem_cons_of_mem _ hq))
    simp [fetchLoop, hb, hnext, hc, hih, List.replicate_succ]

/-- Witness for C1, the spec's own example: page 1 with two orders and a
next link, page 2 with one order and no `Link` header — three records
yielded, two requests, one `0.5`-second pause. -/
theorem fetch_yields_all_pages_witness :
    fetchLoop "orders"
        [ApiResult.ok [[("id", JValue.num 1)], [("id", JValue.num 2)]] linkNextAbc,
         ApiResult.ok [[("id", JValue.num 3)]] ""] =
      ⟨[[("id", JValue.num 1)], [("id", JValue.num 2)], [("id", JValue.num 3)]],
       2, [(0.5 : ℚ)], ["abc"], [], true⟩ := by
  have h := fetch_yields_all_pages "orders"
    [([[("id", JValue.num 1)], [("id", JValue.num 2)]], linkNextAbc)]
    [[("id", JValue.num 3)]] ""
    (by
      intro p hp
      simp only [List.mem_singleton] at hp
      subst hp
      exact ⟨by simp, rfl, rfl⟩)
    (by simp) rfl
  simpa using h

/-- C5: a `RequestException` (transport failure or `raise_for_status` on an
HTTP error status such as 401) on request `k+1` makes the loop print the
error line and break: the records of the `k` prior successful pages are all
that is yielded, `finished = true` records that the generator ended via its
`break` rather than letting the exception escape, and — the loops of the
three resources being separate pure functions of their own response
scripts — the other resource streams are untouched. -/
theorem request_error_stops_loop (resource e : String)
    (good : List (List RawRecord × String)) (rest : List ApiResult)
    (h : ∀ p ∈ good, p.1 ≠ [] ∧ hasNextRel p.2 = true ∧ (extractPageInfo p.2).isSome = true) :
    fetchLoop resource (good.map (fun p => ApiResult.ok p.1 p.2) ++ ApiResult.err e :: rest) =
      ⟨(good.map Prod.fst).flatten, good.length + 1,
       List.replicate good.length (0.5 : ℚ),
       good.map (fun p => (extractPageInfo p.2).getD ""),
       ["Error fetching " ++ resource ++ ": " ++ e], true⟩ := by
  induction good with
  | nil => simp [fetchLoop]
  | cons p ps ih =>
    obtain ⟨hne, hnext, hsome⟩ := h p (List.mem_cons_self _ _)
    obtain ⟨c, hc⟩ := Option.isSome_iff_exists.mp hsome
    have hb : p.1.isEmpty = false := by
      cases hp : p.1 with
      | nil => exact absurd hp hne
      | cons a l => rfl
    have hih := ih (fun q hq => h q (List.mem_cons_of_mem _ hq))
    simp [fetchLoop, hb, hnext, hc, hih, List.replicate_succ]

/-- Witness for C5: one successful page, then an HTTP 401 turned
`RequestException` — the one prior record is yielded, the error is logged,
the loop ends. -/
theorem request_error_stops_loop_witness :
    fetchLoop "orders"
        [ApiResult.ok [[("id", JValue.num 1)]] linkNextAbc,
         ApiResult.err "401 Client Error: Unauthorized"] =
      ⟨[[("id", JValue.num 1)]], 2, [(0.5 : ℚ)], ["abc"],
       ["Error fetching orders: 401 Client Error: Unauthorized"], true⟩ := by
  have h := request_error_stops_loop "orders" "401 Client Error: Unauthorized"
    [([[("id", JValue.num 1)]], linkNextAbc)] []
    (by
      intro p hp
      simp only [List.mem_singleton] at hp
      subst hp
      exact ⟨by simp, rfl, rfl⟩)
  simpa using h

/-- C6: a response whose `Link` header contains `rel="next"` but from which
the `page_info` regex extracts nothing ends the loop after the current
page's records, via `break`, not via an exception. -/
theorem next_without_cursor_is_eos (resource : String) (body : List RawRecord)
    (link : String) (rest : List ApiResult)
    (h1 : body ≠ []) (h2 : hasNextRel link = true) (h3 : extractPageInfo link = none) :
    fetchLoop resource (ApiResult.ok body link :: rest) =
      ⟨body, 1, [], [], [], true⟩ := by
  have hb : body.isEmpty = false := by
    cases body with
    | nil => exact absurd rfl h1
    | cons a l => rfl
  simp [fetchLoop, hb, h2, h3]

/-- Witness for C6: a header with `rel="next"` and no `page_info` parameter
stops the loop after one page. -/
theorem next_without_cursor_is_eos_witness :
    ([([("id", JValue.num 5)] : RawRecord)] : List RawRecord) ≠ [] ∧
    fetchLoop "orders"
        [ApiResult.ok [[("id", JValue.num 5)]]
          "<https://shop.myshopify.com/admin/api/2024-01/orders.json?limit=250>; rel=\"next\""] =
      ⟨[[("id", JValue.num 5)]], 1, [], [], [], true⟩ :=
  ⟨by simp,
   next_without_cursor_is_eos "orders" [[("id", JValue.num 5)]]
     "<https://shop.myshopify.com/admin/api/2024-01/orders.json?limit=250>; rel=\"next\"" []
     (by simp) rfl rfl⟩

/-- Helper for C8: deduplication keeps only rows of the original batch. -/
theorem mem_of_mem_dedupByKey {ρ κ : Type} [DecidableEq κ] (key : ρ → κ)
    {x : ρ} {b : List ρ} (hx : x ∈ dedupByKey key b) : x ∈ b := by
  induction b with
  | nil => simp [dedupByKey] at hx
  | cons r rs ih =>
    simp only [dedupByKey, List.mem_cons, List.mem_filter] at hx
    rcases hx with h | h
    · exact h ▸ List.mem_cons_self _ _
    · exact List.mem_cons_of_mem _ (ih h.1)

/-- C8: upserting the same batch of flat records into a table twice, merging
by key (the pipeline's `write_disposition="merge"` with `primary_key="id"`),
leaves the very same table — in particular the same row count — as upserting
it once. -/
theorem merge_rerun_same_rows {ρ κ : Type} [DecidableEq κ] (key : ρ → κ)
    (table batch : List ρ) :
    mergeByKey key (mergeByKey key table batch) batch = mergeByKey key table batch ∧
    (mergeByKey key (mergeByKey key table batch) batch).length =
      (mergeByKey key table batch).length := by
  have hfilter : ∀ l : List ρ,
      (l.filter (fun r => !decide (key r ∈ batch.map key))).filter
          (fun r => !decide (key r ∈ batch.map key)) =
        l.filter (fun r => !decide (key r ∈ batch.map key)) := by
    intro l
    rw [List.filter_filter]
    simp
  have hdedup : (dedupByKey key batch).filter
      (fun r => !decide (key r ∈ batch.map key)) = [] := by
    rw [List.filter_eq_nil_iff]
    intro x hx
    have : key x ∈ batch.map key := List.mem_map_of_mem _ (mem_of_mem_dedupByKey key hx)
    simp [this]
  have hmain : mergeByKey key (mergeByKey key table batch) batch = mergeByKey key table batch := by
    unfold mergeByKey
    rw [List.filter_append, hfilter, hdedup, List.append_nil]
  exact ⟨hmain, by rw [hmain]⟩

/-- C9 (code bug): `test_shopify_connection.py` never imports `os`, so the
probe's very first statement `os.getenv('API_TOKEN')` raises `NameError` on
every run, whatever the credentials or server responses; the catch-all
`except Exception` handler then prints the "Unexpected error" diagnosis and
returns `False`.  The specific classifications the spec describes
(configuration / authentication / not-found / HTTP / network) are never
reached. -/
theorem probe_always_unexpected :
    ∀ w : ProbeWorld, test_shopify_connection w = (ProbeOutcome.unexpectedError, false) :=
  fun _ => rfl

/-- C10: `test_shopify_connection` always returns a boolean and never lets
an exception escape: the result is `True` exactly when the whole `try` body
completed, and `False` exactly when some exception was raised — every raised
exception, the ones without a dedicated handler included, lands in a handler
(at worst the catch-all) that returns `False`. -/
theorem probe_never_raises (w : ProbeWorld) :
    ((test_shopify_connection w).2 = true ↔ probeBody w = Except.ok ()) ∧
    ((test_shopify_connection w).2 = false ↔ ∃ e, probeBody w = Except.error e) := by
  cases hb : probeBody w with
  | ok u => cases u; simp [test_shopify_connection, hb]
  | error e => simp [test_shopify_connection, hb]

set_option maxRecDepth 4096 in
/-- Counterexample to C2: on a header carrying both a `rel="previous"` and a
`rel="next"` link, the code's regex search returns the previous link's
`page_info` (the leftmost in the header), not the next link's, and that
wrong cursor is what the loop passes to the following request. -/
theorem cursor_from_wrong_link :
    hasNextRel prevNextHeader = true ∧
    specNextPageInfo prevNextHeader = some "nexttoken" ∧
    extractPageInfo prevNextHeader = some "prevtoken" ∧
    extractPageInfo prevNextHeader ≠ specNextPageInfo prevNextHeader ∧
    (fetchLoop "orders"
        [ApiResult.ok [[("id", JValue.num 1)]] prevNextHeader,
         ApiResult.ok [[("id", JValue.num 2)]] ""]).cursors = ["prevtoken"] := by
  have h1 : extractPageInfo prevNextHeader = some "prevtoken" := rfl
  have h2 : specNextPageInfo prevNextHeader = some "nexttoken" := rfl
  refine ⟨rfl, h2, h1, ?_, rfl⟩
  rw [h1, h2]
  simp

/-- Helper: the head of `dropWhile p l` fails `p`. -/
theorem dropWhile_head_false {α : Type} {p : α → Bool} :
    ∀ {l : List α} {d : α} {ds : List α}, l.dropWhile p = d :: ds → p d = false := by
  intro l
  induction l with
  | nil => intro d ds h; cases h
  | cons a as ih =>
    intro d ds h
    by_cases hp : p a
    · rw [List.dropWhile_cons_of_pos hp] at h
      exact ih h
    · rw [List.dropWhile_cons_of_neg hp] at h
      injection h with h1 h2
      subst h1
      exact Bool.eq_false_iff.mpr hp

/-- C2 amended: whenever the regex search finds a cursor, that cursor is the
maximal `&`/`>`-free run following the LEFTMOST occurrence of `page_info=`
anywhere in the header — regardless of which link it belongs to. -/
theorem extract_takes_leftmost_page_info (l v : List Char)
    (h : pageInfoSearch l = some v) :
    ∃ pre post, l = pre ++ piPat ++ v ++ post ∧
      v ≠ [] ∧ (∀ c ∈ v, piStop c = false) ∧
      (∀ d ds, post = d :: ds → piStop d = true) ∧
      (∀ pre2 suf, l = pre2 ++ piPat ++ suf → pre2.length < pre.length →
        ∀ d ds, suf = d :: ds → piStop d = true) := by
  induction l with
  | nil => simp [pageInfoSearch] at h
  | cons c cs ih =>
    rw [pageInfoSearch] at h
    cases hm : piMatchHere (c :: cs) with
    | some w =>
      rw [hm] at h
      injection h with h
      subst h
      unfold piMatchHere at hm
      by_cases hpre : piPat.isPrefixOf (c :: cs)
      · rw [if_pos hpre] at hm
        obtain ⟨tail, htail⟩ := List.isPrefixOf_iff_prefix.mp hpre
        have hdrop : (c :: cs).drop piPat.length = tail := by
          rw [← htail, List.drop_left]
        rw [hdrop] at hm
        cases tail with
        | nil => cases hm
        | cons a as =>
          by_cases hstop : piStop a
          · simp only [hstop, if_true] at hm
            cases hm
          · simp only [hstop, if_false, Bool.false_eq_true] at hm
            injection hm with hm
            refine ⟨[], as.dropWhile (fun x => !piStop x), ?_, ?_, ?_, ?_, ?_⟩
            · have hsplit : (a : Char) :: as =
                  (a :: as.takeWhile (fun x => !piStop x)) ++ as.dropWhile (fun x => !piStop x) := by
                rw [List.cons_append, List.takeWhile_append_dropWhile]
              rw [List.nil_append, ← hm, ← htail, hsplit, List.append_assoc]
            · rw [← hm]
              simp
            · intro x hx
              rw [← hm] at hx
              rcases List.mem_cons.mp hx with rfl | hx
              · exact Bool.eq_false_iff.mpr hstop
              · have := List.mem_takeWhile_imp hx
                simpa using this
            · intro d ds hdd
              simpa using dropWhile_head_false hdd
            · intro pre2 suf hsuf hlen
              simp at hlen
      · rw [if_neg hpre] at hm
        cases hm
    | none =>
      rw [hm] at h
      obtain ⟨pre, post, heq, hv, hvok, hpost, hleft⟩ := ih h
      refine ⟨c :: pre, post, by simp [heq], hv, hvok, hpost, ?_⟩
      intro pre2 suf hsuf hlen d ds hcons
      cases pre2 with
      | nil =>
        by_cases hd : piStop d
        · exact hd
        · exfalso
          simp only [List.nil_append] at hsuf
          have hsome : piMatchHere (c :: cs) = some (d :: ds.takeWhile (fun x => !piStop x)) := by
            unfold piMatchHere
            have hp : piPat.isPrefixOf (c :: cs) :=
              List.isPrefixOf_iff_prefix.mpr ⟨suf, hsuf.symm⟩
            rw [if_pos hp]
            have hdrop : (c :: cs).drop piPat.length = suf := by
              rw [hsuf, List.drop_left]
            rw [hdrop, hcons]
            simp [hd]
          rw [hsome] at hm
          cases hm
      | cons a' pre2' =>
        rw [List.cons_append, List.cons_append] at hsuf
        injection hsuf with hs1 hs2
        simp only [List.length_cons, Nat.add_lt_add_iff_right] at hlen
        exact hleft pre2' suf hs2 hlen d ds hcons

/-- Witness for the amended C2: the characterization applied to a concrete
header. -/
theorem extract_takes_leftmost_page_info_witness :
    pageInfoSearch ("x page_info=abc&y".toList) = some ("abc".toList) ∧
    (∃ pre post, ("x page_info=abc&y".toList) = pre ++ piPat ++ ("abc".toList) ++ post ∧
      ("abc".toList) ≠ [] ∧ (∀ c ∈ ("abc".toList), piStop c = false) ∧
      (∀ d ds, post = d :: ds → piStop d = true) ∧
      (∀ pre2 suf, ("x page_info=abc&y".toList) = pre2 ++ piPat ++ suf →
        pre2.length < pre.length → ∀ d ds, suf = d :: ds → piStop d = true)) :=
  ⟨rfl, extract_takes_leftmost_page_info _ _ rfl⟩

/-- Helper: an absent key reads as `None` through `dict.get`. -/
theorem pyGet_eq_null {r : RawRecord} {k : String} (h : lookupField r k = none) :
    pyGet r k = JValue.null := by
  simp [pyGet, h]

/-- Helper: a `None` parent makes every guarded nested projection `None`. -/
theorem nestedGet_eq_null {r : RawRecord} {p k : String} (h : pyGet r p = JValue.null) :
    nestedGet r p k = JValue.null := by
  simp [nestedGet, h, truthy]

/-- Counterexample to C4: a customers record with no `addresses` key
flattens to the string `"[]"` (Python `str([])`) under `addresses`, not to
`null` — the claim's "every missing selected field maps to null" fails for
the serialized customer fields. -/
theorem missing_addresses_not_null :
    lookupField ([] : RawRecord) "addresses" = none ∧
    lookupField (customer_flat [] "t0") "addresses" = some (JValue.str "[]") ∧
    JValue.str "[]" ≠ JValue.null := by
  refine ⟨rfl, ?_, fun h => JValue.noConfusion h⟩
  have ha : pyStr (JValue.arr []) = "[]" := by
    simp [pyStr, pyRepr]
    rfl
  simp [customer_flat, lookupField, pyGetD, ha]

/-- C4 amended: for every raw record, every selected field missing from the
input maps to `null` in the flat record — including, when the nested parents
are absent, all sixteen parent-derived order fields, with flattening
succeeding rather than failing — EXCEPT the customers fields `addresses`,
`tax_exemptions` and `default_address`, which are serialized with `str(...)`
and therefore map to the textual rendering of their defaults (`"[]"`, `"[]"`
and `"\x7b\x7d"`) when missing. -/
theorem missing_fields_flatten_to_null :
    (∀ (r : RawRecord) (now : String),
        lookupField r "customer" = none → lookupField r "billing_address" = none →
        lookupField r "shipping_address" = none →
        ∃ fr, order_flat r now = some fr ∧
          (∀ f ∈ orderTopFields, lookupField r f = none →
            lookupField fr f = some JValue.null) ∧
          (∀ f ∈ orderNestedFlatFields, lookupField fr f = some JValue.null)) ∧
    (∀ (r : RawRecord) (now : String), ∀ f ∈ productTopFields,
        lookupField r f = none → lookupField (product_flat r now) f = some JValue.null) ∧
    (∀ (r : RawRecord) (now : String),
        (∀ f ∈ customerPlainFields, lookupField r f = none →
          lookupField (customer_flat r now) f = some JValue.null) ∧
        (lookupField r "addresses" = none →
          lookupField (customer_flat r now) "addresses" = some (JValue.str "[]")) ∧
        (lookupField r "tax_exemptions" = none →
          lookupField (customer_flat r now) "tax_exemptions" = some (JValue.str "[]")) ∧
        (lookupField r "default_address" = none →
          lookupField (customer_flat r now) "default_address" = some (JValue.str "\x7b\x7d"))) := by
  have harr : pyStr (JValue.arr []) = "[]" := by
    simp [pyStr, pyRepr]
    rfl
  have hobj : pyStr (JValue.obj []) = "\x7b\x7d" := by
    simp [pyStr, pyRepr]
    rfl
  refine ⟨?_, ?_, ?_⟩
  · intro r now h1 h2 h3
    have hc : pyGet r "customer" = JValue.null := pyGet_eq_null h1
    have hb : pyGet r "billing_address" = JValue.null := pyGet_eq_null h2
    have hs : pyGet r "shipping_address" = JValue.null := pyGet_eq_null h3
    obtain ⟨fr, hfr⟩ : ∃ fr, order_flat r now = some fr := by
      unfold order_flat
      rw [hc, hb, hs]
      exact ⟨_, rfl⟩
    have hfr2 := hfr
    unfold order_flat at hfr2
    rw [hc, hb, hs,
      if_pos
        (show (nestedOK JValue.null && nestedOK JValue.null && nestedOK JValue.null) = true from
          rfl)] at hfr2
    injection hfr2 with hfr2
    subst hfr2
    refine ⟨_, hfr, ?_, ?_⟩
    · intro f hf
      fin_cases hf <;>
        · intro hnone
          simp [lookupField, pyGet_eq_null hnone]
    · intro f hf
      fin_cases hf <;>
        simp [lookupField, nestedGet_eq_null hc, nestedGet_eq_null hb, nestedGet_eq_null hs]
  · intro r now f hf hnone
    fin_cases hf <;> simp [product_flat, lookupField, pyGet_eq_null hnone]
  · intro r now
    refine ⟨?_, ?_, ?_, ?_⟩
    · intro f hf hnone
      fin_cases hf <;> simp [customer_flat, lookupField, pyGet_eq_null hnone]
    · intro h
      have hv : pyGetD r "addresses" (JValue.arr []) = JValue.arr [] := by
        simp [pyGetD, h]
      simp [customer_flat, lookupField, hv, harr]
    · intro h
      have hv : pyGetD r "tax_exemptions" (JValue.arr []) = JValue.arr [] := by
        simp [pyGetD, h]
      simp [customer_flat, lookupField, hv, harr]
    · intro h
      have hv : pyGetD r "default_address" (JValue.obj []) = JValue.obj [] := by
        simp [pyGetD, h]
      simp [customer_flat, lookupField, hv, hobj]

/-- Witness for the amended C4: the empty orders record has all parents
absent; flattening succeeds and `customer_id` is `null`. -/
theorem missing_fields_flatten_to_null_witness :
    ∃ fr, order_flat [] "t" = some fr ∧ lookupField fr "customer_id" = some JValue.null := by
  obtain ⟨fr, hfr, htop, hnest⟩ :=
    missing_fields_flatten_to_null.1 [] "t" rfl rfl rfl
  exact ⟨fr, hfr, hnest "customer_id" (by simp [orderNestedFlatFields])⟩

end Shopify
